import Mathlib

/-!
Shallow embedding of the `trigger-adapters` package: the shared trigger
invocation function (`src/core.ts`) and the per-framework HTTP adapters
(`src/hono.ts`, `src/express.ts`, `src/fastify.ts`, `src/nextjs.ts`).

The external SDK boundary `tasks.trigger` is modelled as an oracle
`sdk : String → α → Except ε η` (it may succeed with a handle of type `η`
or reject with an error of type `ε`).  Payloads are an opaque type `α`:
the adapter layer never inspects them.  Every function that reaches the
SDK also returns the list of SDK calls it made (`CallLog`), so that
claims about "the trigger operation is never invoked" / "exactly one
call" are statable; promise rejection is modelled with `Except`, and a
JS `await` on a call that may reject becomes a `match` that propagates
the `Except.error` branch.
-/

namespace TriggerAdapters

/-- A JSON value, used to instantiate the opaque payload type at concrete
inputs (the adapters themselves are polymorphic in the payload). -/
inductive Json where
  | null : Json
  | bool (b : Bool) : Json
  | num (n : Int) : Json
  | str (s : String) : Json
  | arr (elems : List Json) : Json
  | obj (fields : List (String × Json)) : Json
deriving Repr

/-- One recorded call to the external SDK: the `(id, payload)` pair it was
invoked with. -/
abbrev CallLog (α : Type) := List (String × α)

/-- The external SDK boundary `tasks.trigger(id, payload)`: consults the
oracle and records the call. -/
def tasksTrigger (sdk : String → α → Except ε η) (id : String) (payload : α) :
    Except ε η × CallLog α :=
  (sdk id payload, [(id, payload)])

/-- The result envelope of `core.ts`: `{ taskId, payload, handle }`. -/
structure TriggerResult (α η : Type) where
  taskId : String
  payload : α
  handle : η
deriving Repr

/-- `core.ts` `trigger(id, payload)`: awaits `tasks.trigger(id, payload)` and
wraps the handle with the original `id` and `payload`; a rejection of the
SDK call propagates unchanged (there is no try/catch in `core.ts`). -/
def trigger (sdk : String → α → Except ε η) (id : String) (payload : α) :
    Except ε (TriggerResult α η) × CallLog α :=
  match tasksTrigger sdk id payload with
  | (Except.ok handle, log) => (Except.ok ⟨id, payload, handle⟩, log)
  | (Except.error e, log) => (Except.error e, log)

/-- The HTTP response body an adapter writes: either the success envelope
(serialized `TriggerResult`) or an error envelope `{ error: message }`. -/
inductive Body (α η : Type) where
  | result (r : TriggerResult α η) : Body α η
  | error (message : String) : Body α η
deriving Repr

/-- An adapter's HTTP response: status code plus body.  Frameworks whose
response write carries no explicit status (`c.json(...)`, `reply.send(...)`,
`response.send(...)`, `NextResponse.json(...)`) default to 200. -/
structure Response (α η : Type) where
  status : Nat
  body : Body α η
deriving Repr

/-- JS falsiness of a route-parameter value that is either absent
(`undefined`) or a string: `!task` is true exactly for `undefined` and `""`. -/
def strFalsy : Option String → Bool
  | none => true
  | some s => s == ""

/-- The string held by a present route parameter (`""` when absent; only
used after a `strFalsy` guard has ruled absence out). -/
def paramStr : Option String → String
  | none => ""
  | some s => s

/-- The request surface `hono.ts` touches: `c.req.param("id")` and
`await c.req.json()` (body already parsed; malformed bodies are outside
the adapter contract). -/
structure HonoContext (α : Type) where
  paramId : Option String
  jsonBody : α

/-- `hono.ts` `handler()`: guard on `!task` with 400, otherwise trigger and
respond with `c.json(result)` (status 200); a rejection of `trigger`
propagates (no try/catch). -/
def Hono.handler (sdk : String → α → Except ε η) (c : HonoContext α) :
    Except ε (Response α η) × CallLog α :=
  if strFalsy c.paramId then
    (Except.ok ⟨400, Body.error "Task ID is required"⟩, [])
  else
    match trigger sdk (paramStr c.paramId) c.jsonBody with
    | (Except.ok result, log) => (Except.ok ⟨200, Body.result result⟩, log)
    | (Except.error e, log) => (Except.error e, log)

/-- The request surface `express.ts` touches: `request.params.id` and
`request.body` (parsed by express middleware). -/
structure ExpressRequest (α : Type) where
  paramsId : Option String
  body : α

/-- `express.ts` `handler()`: guard on `!task` with 400, otherwise trigger
and `response.send(result)` (status 200); a rejection of `trigger`
propagates (no try/catch). -/
def Express.handler (sdk : String → α → Except ε η) (request : ExpressRequest α) :
    Except ε (Response α η) × CallLog α :=
  if strFalsy request.paramsId then
    (Except.ok ⟨400, Body.error "Task ID is required"⟩, [])
  else
    match trigger sdk (paramStr request.paramsId) request.body with
    | (Except.ok result, log) => (Except.ok ⟨200, Body.result result⟩, log)
    | (Except.error e, log) => (Except.error e, log)

/-- The request surface the fastify adapter touches: `request.params.id`
and `request.body`. -/
structure FastifyRequest (α : Type) where
  paramsId : Option String
  body : α

/-- The fastify `handler()`: guard on `!taskId` with 400, then
`try { ... reply.send(result) } catch { reply.code(500).send(...) }` —
the only adapter that catches a rejection of `trigger`. -/
def Fastify.handler (sdk : String → α → Except ε η) (request : FastifyRequest α) :
    Except ε (Response α η) × CallLog α :=
  if strFalsy request.paramsId then
    (Except.ok ⟨400, Body.error "Task ID is required"⟩, [])
  else
    match trigger sdk (paramStr request.paramsId) request.body with
    | (Except.ok result, log) => (Except.ok ⟨200, Body.result result⟩, log)
    | (Except.error _e, log) => (Except.ok ⟨500, Body.error "Failed to trigger task"⟩, log)

/-- JS `String.prototype.split` with a one-character separator, on the
character list of the string: `"".split(c) = [""]`, and every occurrence of
`c` starts a new field. -/
def splitChar (c : Char) : List Char → List (List Char)
  | [] => [[]]
  | x :: xs =>
    if x = c then [] :: splitChar c xs
    else
      match splitChar c xs with
      | [] => [[x]]
      | y :: ys => (x :: y) :: ys

/-- `nextjs.ts` `POST`: `request.url.split("/").pop()`.  `split` never
returns an empty array, so `pop` is the last field (possibly `""`). -/
def urlTaskId (url : String) : String :=
  ((splitChar '/' url.data).getLastD []).asString

/-- The request surface of the Next.js App Router entry point: the full
request URL string and the parsed JSON body (`await request.json()`). -/
structure NextRequest (α : Type) where
  url : String
  body : α

/-- A Next.js Pages Router query value: `request.query[k]` is a string or
an array of strings when present. -/
inductive QueryValue where
  | str (s : String) : QueryValue
  | strs (l : List String) : QueryValue

/-- `!taskId || typeof taskId !== "string"` for `taskId = request.query.id`:
true when the value is absent, the empty string, or a string array. -/
def invalidQueryId : Option QueryValue → Bool
  | none => true
  | some (QueryValue.str s) => s == ""
  | some (QueryValue.strs _) => true

/-- The string held by a query value that passed the guard (`""` in the
impossible cases). -/
def queryIdStr : Option QueryValue → String
  | some (QueryValue.str s) => s
  | _ => ""

/-- The request surface of the Next.js Pages Router entry point:
`request.method`, `request.query.id`, `request.body`. -/
structure NextApiRequest (α : Type) where
  method : String
  queryId : Option QueryValue
  body : α

/-- `nextjs.ts` `POST`: extract the id as the last `/`-separated field of
`request.url`, guard on `!taskId` with 400, trigger, and respond with
`NextResponse.json(response)` (status 200); rejections propagate. -/
def Nextjs.POST (sdk : String → α → Except ε η) (request : NextRequest α) :
    Except ε (Response α η) × CallLog α :=
  if urlTaskId request.url == "" then
    (Except.ok ⟨400, Body.error "Task ID is required"⟩, [])
  else
    match trigger sdk (urlTaskId request.url) request.body with
    | (Except.ok response, log) => (Except.ok ⟨200, Body.result response⟩, log)
    | (Except.error e, log) => (Except.error e, log)

/-- `nextjs.ts` `handle`: reject non-POST methods with 405, guard on
`!taskId || typeof taskId !== "string"` with 400, trigger, and respond with
`response.status(200).json(result)`; rejections propagate. -/
def Nextjs.handle (sdk : String → α → Except ε η) (request : NextApiRequest α) :
    Except ε (Response α η) × CallLog α :=
  if request.method != "POST" then
    (Except.ok ⟨405, Body.error "Method not allowed"⟩, [])
  else if invalidQueryId request.queryId then
    (Except.ok ⟨400, Body.error "Task ID is required"⟩, [])
  else
    match trigger sdk (queryIdStr request.queryId) request.body with
    | (Except.ok result, log) => (Except.ok ⟨200, Body.result result⟩, log)
    | (Except.error e, log) => (Except.error e, log)

/-- The value returned by the `nextjs.ts` factory: two named entry points. -/
structure NextjsHandler (ε α η : Type) where
  POST : NextRequest α → Except ε (Response α η) × CallLog α
  handle : NextApiRequest α → Except ε (Response α η) × CallLog α

/-- `nextjs.ts` `handler()`: returns `{ POST, handle }`. -/
def Nextjs.handler (sdk : String → α → Except ε η) : NextjsHandler ε α η :=
  { POST := Nextjs.POST sdk, handle := Nextjs.handle sdk }

/-- Modelled from the claim's words (C6): "the final path segment of the
URL's path" — the part after the last `/` of the URL once any query string
(`?...`) or fragment (`#...`) has been stripped. -/
def pathFinalSegment (url : String) : String :=
  ((splitChar '/' (url.data.takeWhile (fun c => c != '?' && c != '#'))).getLastD []).asString

/-- Concrete SDK oracle that always succeeds, for evaluating the adapters
at concrete inputs. -/
def sdkOk : String → Json → Except String String :=
  fun _ _ => Except.ok "run_abc123"

/-- Concrete SDK oracle that always rejects, for evaluating the adapters
at concrete inputs. -/
def sdkErr : String → Json → Except String String :=
  fun _ _ => Except.error "ECONNREFUSED"

/-- A second rejecting SDK oracle with a different error value. -/
def sdkErr2 : String → Json → Except String String :=
  fun _ _ => Except.error "database password leaked in stack trace"

/-- A concrete nested JSON payload: object with string, array, boolean,
number and null members. -/
def samplePayload : Json :=
  Json.obj
    [("name", Json.str "Test User"),
     ("tags", Json.arr [Json.num 1, Json.num 2, Json.bool true, Json.null]),
     ("nested", Json.obj [("ok", Json.bool false)])]

/-! ### Helper lemmas about `splitChar` -/

theorem splitChar_ne_nil (c : Char) (l : List Char) : splitChar c l ≠ [] := by
  induction l with
  | nil => simp [splitChar]
  | cons x xs ih =>
    simp only [splitChar]
    split
    · simp
    · split
      · simp
      · simp

theorem splitChar_no_sep (c : Char) (l : List Char) (h : c ∉ l) :
    splitChar c l = [l] := by
  induction l with
  | nil => rfl
  | cons x xs ih =>
    have hx : x ≠ c := fun hxc => h (by simp [hxc])
    have hxs : c ∉ xs := fun hc => h (List.mem_cons_of_mem _ hc)
    simp only [splitChar, if_neg hx, ih hxs]

theorem splitChar_length_ge_two (c : Char) (l₁ l₂ : List Char) :
    2 ≤ (splitChar c (l₁ ++ c :: l₂)).length := by
  induction l₁ with
  | nil =>
    have h1 : splitChar c ([] ++ c :: l₂) = [] :: splitChar c l₂ := by
      simp [splitChar]
    rw [h1, List.length_cons]
    have h2 : 0 < (splitChar c l₂).length :=
      List.length_pos.mpr (splitChar_ne_nil c l₂)
    omega
  | cons x xs ih =>
    by_cases hxc : x = c
    · have h1 : splitChar c ((x :: xs) ++ c :: l₂) = [] :: splitChar c (xs ++ c :: l₂) := by
        simp [splitChar, hxc]
      rw [h1, List.length_cons]
      omega
    · cases hs : splitChar c (xs ++ c :: l₂) with
      | nil => exact absurd hs (splitChar_ne_nil c _)
      | cons y ys =>
        have h1 : splitChar c ((x :: xs) ++ c :: l₂) = (x :: y) :: ys := by
          simp [splitChar, hxc, hs]
        rw [h1, List.length_cons]
        rw [hs] at ih
        simp only [List.length_cons] at ih
        omega

theorem getLastD_splitChar_append (c : Char) (l₁ l₂ : List Char) (h : c ∉ l₂) :
    (splitChar c (l₁ ++ c :: l₂)).getLastD [] = l₂ := by
  induction l₁ with
  | nil =>
    simp only [List.nil_append, splitChar, if_pos rfl, splitChar_no_sep c l₂ h]
    rfl
  | cons x xs ih =>
    by_cases hxc : x = c
    · have h1 : splitChar c ((x :: xs) ++ c :: l₂) = [] :: splitChar c (xs ++ c :: l₂) := by
        simp [splitChar, hxc]
      rw [h1, List.getLastD_cons]
      cases hs : splitChar c (xs ++ c :: l₂) with
      | nil => exact absurd hs (splitChar_ne_nil c _)
      | cons y ys =>
        rw [hs] at ih
        rw [List.getLastD_cons] at ih ⊢
        exact ih
    · cases hs : splitChar c (xs ++ c :: l₂) with
      | nil => exact absurd hs (splitChar_ne_nil c _)
      | cons y ys =>
        have h1 : splitChar c ((x :: xs) ++ c :: l₂) = (x :: y) :: ys := by
          simp [splitChar, hxc, hs]
        have hlen := splitChar_length_ge_two c xs l₂
        rw [hs] at hlen
        simp only [List.length_cons] at hlen
        have hys : ys ≠ [] := by
          intro h0
          subst h0
          simp at hlen
        rw [hs] at ih
        rw [List.getLastD_cons] at ih
        rw [h1, List.getLastD_cons]
        rw [List.getLastD_eq_getLast? ] at ih ⊢
        cases hys' : ys.getLast? with
        | none => exact absurd (List.getLast?_eq_none_iff.mp hys') hys
        | some z =>
          rw [hys'] at ih
          simpa using ih

/-! ### Claim theorems -/

/-- Claim C3: the envelope returned by `trigger` has `taskId` exactly the
`id` it was called with and `handle` exactly the value the SDK's trigger
operation returned, both unmodified. -/
theorem C3_trigger_envelope_identity (sdk : String → α → Except ε η)
    (id : String) (p : α) (h : η) (hsdk : sdk id p = Except.ok h) :
    trigger sdk id p = (Except.ok ⟨id, p, h⟩, [(id, p)]) := by
  simp [trigger, tasksTrigger, hsdk]

theorem C3_witness :
    sdkOk "test-task" samplePayload = Except.ok "run_abc123" ∧
    trigger sdkOk "test-task" samplePayload =
      (Except.ok ⟨"test-task", samplePayload, "run_abc123"⟩,
        [("test-task", samplePayload)]) :=
  ⟨rfl, C3_trigger_envelope_identity sdkOk "test-task" samplePayload "run_abc123" rfl⟩

/-- Claim C4: if the SDK's trigger operation rejects, `trigger` does not
catch the failure — the exact same error value propagates to its caller,
with no wrapping or substitution. -/
theorem C4_trigger_error_passthrough (sdk : String → α → Except ε η)
    (id : String) (p : α) (e : ε) (hsdk : sdk id p = Except.error e) :
    trigger sdk id p = (Except.error e, [(id, p)]) := by
  simp [trigger, tasksTrigger, hsdk]

theorem C4_witness :
    sdkErr "test-task" samplePayload = Except.error "ECONNREFUSED" ∧
    trigger sdkErr "test-task" samplePayload =
      (Except.error "ECONNREFUSED", [("test-task", samplePayload)]) :=
  ⟨rfl, C4_trigger_error_passthrough sdkErr "test-task" samplePayload "ECONNREFUSED" rfl⟩

/-- Claim C5: the fastify adapter catches a rejection of the trigger call
and responds with status 500 and body `{ error: "Failed to trigger task" }`
(the result is a normal response, not a propagated exception). -/
theorem C5_fastify_catches_rejection (sdk : String → α → Except ε η)
    (id : String) (p : α) (e : ε) (hid : id ≠ "")
    (hsdk : sdk id p = Except.error e) :
    Fastify.handler sdk ⟨some id, p⟩ =
      (Except.ok ⟨500, Body.error "Failed to trigger task"⟩, [(id, p)]) := by
  simp [Fastify.handler, strFalsy, paramStr, trigger, tasksTrigger, hsdk, hid]

theorem C5_witness :
    ("test-task" : String) ≠ "" ∧
    sdkErr "test-task" samplePayload = Except.error "ECONNREFUSED" ∧
    Fastify.handler sdkErr ⟨some "test-task", samplePayload⟩ =
      (Except.ok ⟨500, Body.error "Failed to trigger task"⟩,
        [("test-task", samplePayload)]) :=
  ⟨by decide, rfl,
    C5_fastify_catches_rejection sdkErr "test-task" samplePayload "ECONNREFUSED"
      (by decide) rfl⟩

/-- Claim C9: the fastify adapter's 500 response is independent of the
error value — two runs whose trigger calls reject with different errors
produce identical responses, so no detail of the error reaches the caller. -/
theorem C9_error_noninterference (sdk₁ sdk₂ : String → α → Except ε η)
    (id : String) (p : α) (e₁ e₂ : ε) (hid : id ≠ "")
    (h₁ : sdk₁ id p = Except.error e₁) (h₂ : sdk₂ id p = Except.error e₂) :
    (Fastify.handler sdk₁ ⟨some id, p⟩).1 = (Fastify.handler sdk₂ ⟨some id, p⟩).1 ∧
    (Fastify.handler sdk₁ ⟨some id, p⟩).1 =
      Except.ok ⟨500, Body.error "Failed to trigger task"⟩ := by
  constructor <;>
    simp [Fastify.handler, strFalsy, paramStr, trigger, tasksTrigger, h₁, h₂, hid]

theorem C9_witness :
    ("test-task" : String) ≠ "" ∧
    sdkErr "test-task" samplePayload = Except.error "ECONNREFUSED" ∧
    sdkErr2 "test-task" samplePayload =
      Except.error "database password leaked in stack trace" ∧
    (Fastify.handler sdkErr ⟨some "test-task", samplePayload⟩).1 =
      (Fastify.handler sdkErr2 ⟨some "test-task", samplePayload⟩).1 ∧
    (Fastify.handler sdkErr ⟨some "test-task", samplePayload⟩).1 =
      Except.ok ⟨500, Body.error "Failed to trigger task"⟩ :=
  ⟨by decide, rfl, rfl,
    (C9_error_noninterference sdkErr sdkErr2 "test-task" samplePayload
      "ECONNREFUSED" "database password leaked in stack trace"
      (by decide) rfl rfl).1,
    (C9_error_noninterference sdkErr sdkErr2 "test-task" samplePayload
      "ECONNREFUSED" "database password leaked in stack trace"
      (by decide) rfl rfl).2⟩

/-- Claim C10: the Next.js legacy entry point `handle` responds to any
non-POST method with status 405 and body `{ error: "Method not allowed" }`
and never invokes the trigger operation. -/
theorem C10_handle_rejects_non_post (sdk : String → α → Except ε η)
    (m : String) (q : Option QueryValue) (p : α) (hm : m ≠ "POST") :
    Nextjs.handle sdk ⟨m, q, p⟩ =
      (Except.ok ⟨405, Body.error "Method not allowed"⟩, []) := by
  simp [Nextjs.handle, hm]

theorem C10_witness :
    ("GET" : String) ≠ "POST" ∧
    Nextjs.handle sdkOk ⟨"GET", some (QueryValue.str "test-task"), samplePayload⟩ =
      (Except.ok ⟨405, Body.error "Method not allowed"⟩, []) :=
  ⟨by decide,
    C10_handle_rejects_non_post sdkOk "GET" (some (QueryValue.str "test-task"))
      samplePayload (by decide)⟩

/-- Claim C1: for every non-empty identifier and every payload, each
adapter's handler (hono, express, fastify, and both Next.js entry points)
produces a 200 response whose body is the success envelope: `taskId` equal
to the identifier and `payload` the request body unchanged (the payload
type is opaque to the adapters, so arrays, nested objects, booleans,
numbers and null all pass through by the same equality). -/
theorem C1_success_roundtrip (sdk : String → α → Except ε η)
    (id : String) (p : α) (h : η) (url : String)
    (hid : id ≠ "") (hurl : urlTaskId url = id) (hsdk : sdk id p = Except.ok h) :
    Hono.handler sdk ⟨some id, p⟩ =
      (Except.ok ⟨200, Body.result ⟨id, p, h⟩⟩, [(id, p)]) ∧
    Express.handler sdk ⟨some id, p⟩ =
      (Except.ok ⟨200, Body.result ⟨id, p, h⟩⟩, [(id, p)]) ∧
    Fastify.handler sdk ⟨some id, p⟩ =
      (Except.ok ⟨200, Body.result ⟨id, p, h⟩⟩, [(id, p)]) ∧
    Nextjs.POST sdk ⟨url, p⟩ =
      (Except.ok ⟨200, Body.result ⟨id, p, h⟩⟩, [(id, p)]) ∧
    Nextjs.handle sdk ⟨"POST", some (QueryValue.str id), p⟩ =
      (Except.ok ⟨200, Body.result ⟨id, p, h⟩⟩, [(id, p)]) := by
  refine ⟨?_, ?_, ?_, ?_, ?_⟩
  · simp [Hono.handler, strFalsy, paramStr, trigger, tasksTrigger, hsdk, hid]
  · simp [Express.handler, strFalsy, paramStr, trigger, tasksTrigger, hsdk, hid]
  · simp [Fastify.handler, strFalsy, paramStr, trigger, tasksTrigger, hsdk, hid]
  · simp [Nextjs.POST, hurl, trigger, tasksTrigger, hsdk, hid]
  · simp [Nextjs.handle, invalidQueryId, queryIdStr, trigger, tasksTrigger, hsdk, hid]

theorem C1_witness :
    ("test-task" : String) ≠ "" ∧
    urlTaskId "http://localhost:3000/api/trigger/test-task" = "test-task" ∧
    sdkOk "test-task" samplePayload = Except.ok "run_abc123" ∧
    Hono.handler sdkOk ⟨some "test-task", samplePayload⟩ =
      (Except.ok ⟨200, Body.result ⟨"test-task", samplePayload, "run_abc123"⟩⟩,
        [("test-task", samplePayload)]) ∧
    Express.handler sdkOk ⟨some "test-task", samplePayload⟩ =
      (Except.ok ⟨200, Body.result ⟨"test-task", samplePayload, "run_abc123"⟩⟩,
        [("test-task", samplePayload)]) ∧
    Fastify.handler sdkOk ⟨some "test-task", samplePayload⟩ =
      (Except.ok ⟨200, Body.result ⟨"test-task", samplePayload, "run_abc123"⟩⟩,
        [("test-task", samplePayload)]) ∧
    Nextjs.POST sdkOk ⟨"http://localhost:3000/api/trigger/test-task", samplePayload⟩ =
      (Except.ok ⟨200, Body.result ⟨"test-task", samplePayload, "run_abc123"⟩⟩,
        [("test-task", samplePayload)]) ∧
    Nextjs.handle sdkOk ⟨"POST", some (QueryValue.str "test-task"), samplePayload⟩ =
      (Except.ok ⟨200, Body.result ⟨"test-task", samplePayload, "run_abc123"⟩⟩,
        [("test-task", samplePayload)]) := by
  have hmain := C1_success_roundtrip sdkOk "test-task" samplePayload "run_abc123"
    "http://localhost:3000/api/trigger/test-task" (by decide) (by decide) rfl
  exact ⟨by decide, by decide, rfl, hmain.1, hmain.2.1, hmain.2.2.1,
    hmain.2.2.2.1, hmain.2.2.2.2⟩

/-- Claim C2: when the identifier is absent or the empty string, every
adapter responds with status 400 and body `{ error: "Task ID is required" }`
and the SDK trigger operation is never invoked (empty call log). -/
theorem C2_missing_id_early_return (sdk : String → α → Except ε η) (p : α)
    (oid : Option String) (url : String) (q : Option QueryValue)
    (hoid : oid = none ∨ oid = some "") (hurl : urlTaskId url = "")
    (hq : q = none ∨ q = some (QueryValue.str "")) :
    Hono.handler sdk ⟨oid, p⟩ =
      (Except.ok ⟨400, Body.error "Task ID is required"⟩, []) ∧
    Express.handler sdk ⟨oid, p⟩ =
      (Except.ok ⟨400, Body.error "Task ID is required"⟩, []) ∧
    Fastify.handler sdk ⟨oid, p⟩ =
      (Except.ok ⟨400, Body.error "Task ID is required"⟩, []) ∧
    Nextjs.POST sdk ⟨url, p⟩ =
      (Except.ok ⟨400, Body.error "Task ID is required"⟩, []) ∧
    Nextjs.handle sdk ⟨"POST", q, p⟩ =
      (Except.ok ⟨400, Body.error "Task ID is required"⟩, []) := by
  refine ⟨?_, ?_, ?_, ?_, ?_⟩
  · rcases hoid with rfl | rfl <;> simp [Hono.handler, strFalsy]
  · rcases hoid with rfl | rfl <;> simp [Express.handler, strFalsy]
  · rcases hoid with rfl | rfl <;> simp [Fastify.handler, strFalsy]
  · simp [Nextjs.POST, hurl]
  · rcases hq with rfl | rfl <;> simp [Nextjs.handle, invalidQueryId]

theorem C2_witness :
    ((some "" : Option String) = none ∨ (some "" : Option String) = some "") ∧
    urlTaskId "http://localhost:3000/api/trigger/" = "" ∧
    (none : Option QueryValue) = none ∧
    Hono.handler sdkOk ⟨some "", samplePayload⟩ =
      (Except.ok ⟨400, Body.error "Task ID is required"⟩, []) ∧
    Express.handler sdkOk ⟨some "", samplePayload⟩ =
      (Except.ok ⟨400, Body.error "Task ID is required"⟩, []) ∧
    Fastify.handler sdkOk ⟨some "", samplePayload⟩ =
      (Except.ok ⟨400, Body.error "Task ID is required"⟩, []) ∧
    Nextjs.POST sdkOk ⟨"http://localhost:3000/api/trigger/", samplePayload⟩ =
      (Except.ok ⟨400, Body.error "Task ID is required"⟩, []) ∧
    Nextjs.handle sdkOk ⟨"POST", none, samplePayload⟩ =
      (Except.ok ⟨400, Body.error "Task ID is required"⟩, []) := by
  have hmain := C2_missing_id_early_return sdkOk samplePayload (some "")
    "http://localhost:3000/api/trigger/" none (Or.inr rfl) (by decide) (Or.inl rfl)
  exact ⟨Or.inr rfl, by decide, rfl, hmain.1, hmain.2.1, hmain.2.2.1,
    hmain.2.2.2.1, hmain.2.2.2.2⟩

/-- Claim C7: the Next.js factory returns two named entry points, `POST`
(modern single-request convention) and `handle` (legacy request/response
convention); both are pure functions of their own request (no shared
state), and on corresponding inputs — a POST-method legacy request whose
`query.id` equals the URL-extracted identifier of the modern request, with
the same body — they produce identical outcomes (same response, same SDK
calls), whether the trigger call succeeds or rejects. -/
theorem C7_dual_convention_equivalence (sdk : String → α → Except ε η)
    (url id : String) (p : α) (hurl : urlTaskId url = id) :
    (Nextjs.handler sdk).POST ⟨url, p⟩ =
      (Nextjs.handler sdk).handle ⟨"POST", some (QueryValue.str id), p⟩ := by
  subst hurl
  by_cases hempty : urlTaskId url = ""
  · simp [Nextjs.handler, Nextjs.POST, Nextjs.handle, invalidQueryId, hempty]
  · simp [Nextjs.handler, Nextjs.POST, Nextjs.handle, invalidQueryId, queryIdStr, hempty]

theorem C7_witness :
    urlTaskId "http://localhost:3000/api/trigger/test-task" = "test-task" ∧
    (Nextjs.handler sdkOk).POST
        ⟨"http://localhost:3000/api/trigger/test-task", samplePayload⟩ =
      (Nextjs.handler sdkOk).handle
        ⟨"POST", some (QueryValue.str "test-task"), samplePayload⟩ :=
  ⟨by decide,
    C7_dual_convention_equivalence sdkOk "http://localhost:3000/api/trigger/test-task"
      "test-task" samplePayload (by decide)⟩

/-- Claim C8: on every invocation with a non-empty identifier, each adapter
makes exactly one call to the SDK trigger operation — also when the call
rejects (no retry, including the catching fastify adapter) — and mutates no
local state (the handlers are pure functions of the request). -/
theorem C8_exactly_one_sdk_call (sdk : String → α → Except ε η)
    (id : String) (p : α) (url : String)
    (hid : id ≠ "") (hurl : urlTaskId url = id) :
    (Hono.handler sdk ⟨some id, p⟩).2 = [(id, p)] ∧
    (Express.handler sdk ⟨some id, p⟩).2 = [(id, p)] ∧
    (Fastify.handler sdk ⟨some id, p⟩).2 = [(id, p)] ∧
    (Nextjs.POST sdk ⟨url, p⟩).2 = [(id, p)] ∧
    (Nextjs.handle sdk ⟨"POST", some (QueryValue.str id), p⟩).2 = [(id, p)] := by
  refine ⟨?_, ?_, ?_, ?_, ?_⟩ <;> cases hsdk : sdk id p
  · simp [Hono.handler, strFalsy, paramStr, trigger, tasksTrigger, hsdk, hid]
  · simp [Hono.handler, strFalsy, paramStr, trigger, tasksTrigger, hsdk, hid]
  · simp [Express.handler, strFalsy, paramStr, trigger, tasksTrigger, hsdk, hid]
  · simp [Express.handler, strFalsy, paramStr, trigger, tasksTrigger, hsdk, hid]
  · simp [Fastify.handler, strFalsy, paramStr, trigger, tasksTrigger, hsdk, hid]
  · simp [Fastify.handler, strFalsy, paramStr, trigger, tasksTrigger, hsdk, hid]
  · simp [Nextjs.POST, hurl, trigger, tasksTrigger, hsdk, hid]
  · simp [Nextjs.POST, hurl, trigger, tasksTrigger, hsdk, hid]
  · simp [Nextjs.handle, invalidQueryId, queryIdStr, trigger, tasksTrigger, hsdk, hid]
  · simp [Nextjs.handle, invalidQueryId, queryIdStr, trigger, tasksTrigger, hsdk, hid]

theorem C8_witness :
    ("test-task" : String) ≠ "" ∧
    urlTaskId "http://localhost:3000/api/trigger/test-task" = "test-task" ∧
    (Hono.handler sdkErr ⟨some "test-task", samplePayload⟩).2 =
      [("test-task", samplePayload)] ∧
    (Express.handler sdkErr ⟨some "test-task", samplePayload⟩).2 =
      [("test-task", samplePayload)] ∧
    (Fastify.handler sdkErr ⟨some "test-task", samplePayload⟩).2 =
      [("test-task", samplePayload)] ∧
    (Nextjs.POST sdkErr ⟨"http://localhost:3000/api/trigger/test-task", samplePayload⟩).2 =
      [("test-task", samplePayload)] ∧
    (Nextjs.handle sdkErr ⟨"POST", some (QueryValue.str "test-task"), samplePayload⟩).2 =
      [("test-task", samplePayload)] := by
  have hmain := C8_exactly_one_sdk_call sdkErr "test-task" samplePayload
    "http://localhost:3000/api/trigger/test-task" (by decide) (by decide)
  exact ⟨by decide, by decide, hmain.1, hmain.2.1, hmain.2.2.1,
    hmain.2.2.2.1, hmain.2.2.2.2⟩

/-- Claim C6 (counterexample): the Next.js `POST` entry point extracts the
part of the full URL string after its last `/`, which is not the final
segment of the URL's path when a query string is present: on
`.../trigger/abc?x=1` it extracts `"abc?x=1"` while the path's final
segment is `"abc"`, and on `.../trigger/?x=1` — whose path ends in `/` —
it responds 200 (with identifier `"?x=1"`) instead of the claimed 400. -/
theorem C6_counterexample :
    urlTaskId "http://localhost:3000/api/trigger/abc?x=1" = "abc?x=1" ∧
    pathFinalSegment "http://localhost:3000/api/trigger/abc?x=1" = "abc" ∧
    urlTaskId "http://localhost:3000/api/trigger/abc?x=1" ≠
      pathFinalSegment "http://localhost:3000/api/trigger/abc?x=1" ∧
    pathFinalSegment "http://localhost:3000/api/trigger/?x=1" = "" ∧
    Nextjs.POST sdkOk ⟨"http://localhost:3000/api/trigger/?x=1", samplePayload⟩ =
      (Except.ok ⟨200, Body.result ⟨"?x=1", samplePayload, "run_abc123"⟩⟩,
        [("?x=1", samplePayload)]) :=
  ⟨by decide, by decide, by decide, by decide, rfl⟩

/-- Claim C6 (amended): for the Next.js App Router `POST` entry point, the
extracted identifier is the part of the full URL *string* after its last
`/` — including any query string or fragment, since the URL is split as a
raw string: for any URL of the form `l₁ ++ "/" ++ l₂` with no `/` in `l₂`,
the identifier is exactly `l₂`.  A URL string that ends in `/` (empty last
field) yields the missing-identifier 400 response with no SDK call;
otherwise the handler triggers with that identifier and returns its
envelope with status 200. -/
theorem C6_amended_url_extraction (sdk : String → α → Except ε η) (p : α) :
    (∀ l₁ l₂ : List Char, '/' ∉ l₂ →
      urlTaskId (String.mk (l₁ ++ '/' :: l₂)) = String.mk l₂) ∧
    (∀ url : String, urlTaskId url = "" →
      Nextjs.POST sdk ⟨url, p⟩ =
        (Except.ok ⟨400, Body.error "Task ID is required"⟩, [])) ∧
    (∀ url : String, ∀ h : η, urlTaskId url ≠ "" → sdk (urlTaskId url) p = Except.ok h →
      Nextjs.POST sdk ⟨url, p⟩ =
        (Except.ok ⟨200, Body.result ⟨urlTaskId url, p, h⟩⟩, [(urlTaskId url, p)])) := by
  refine ⟨?_, ?_, ?_⟩
  · intro l₁ l₂ hmem
    show ((splitChar '/' (String.mk (l₁ ++ '/' :: l₂)).data).getLastD []).asString = _
    have hdata : (String.mk (l₁ ++ '/' :: l₂)).data = l₁ ++ '/' :: l₂ := rfl
    rw [hdata, getLastD_splitChar_append _ _ _ hmem]
    rfl
  · intro url hurl
    simp [Nextjs.POST, hurl]
  · intro url h hne hsdk
    simp [Nextjs.POST, trigger, tasksTrigger, hsdk, hne]

theorem C6_amended_witness :
    ('/' : Char) ∉ "abc?x=1".data ∧
    urlTaskId (String.mk ("http://localhost:3000/api/trigger".data ++ '/' :: "abc?x=1".data)) =
      String.mk "abc?x=1".data ∧
    urlTaskId "http://localhost:3000/api/trigger/" = "" ∧
    Nextjs.POST sdkOk ⟨"http://localhost:3000/api/trigger/", samplePayload⟩ =
      (Except.ok ⟨400, Body.error "Task ID is required"⟩, []) ∧
    urlTaskId "http://localhost:3000/api/trigger/abc?x=1" ≠ "" ∧
    sdkOk (urlTaskId "http://localhost:3000/api/trigger/abc?x=1") samplePayload =
      Except.ok "run_abc123" ∧
    Nextjs.POST sdkOk ⟨"http://localhost:3000/api/trigger/abc?x=1", samplePayload⟩ =
      (Except.ok ⟨200,
        Body.result ⟨urlTaskId "http://localhost:3000/api/trigger/abc?x=1",
          samplePayload, "run_abc123"⟩⟩,
        [(urlTaskId "http://localhost:3000/api/trigger/abc?x=1", samplePayload)]) := by
  have hmain := C6_amended_url_extraction sdkOk samplePayload
  exact ⟨by decide, hmain.1 _ _ (by decide), by decide, hmain.2.1 _ (by decide),
    by decide, rfl, hmain.2.2 _ "run_abc123" (by decide) rfl⟩

end TriggerAdapters
